import Mathlib

/-!
Shallow embedding of the server-side authentication/authorization resolution
layer of the nuxt4-auth bulletin-board application:

* `server/utils/cognito.ts` — credential extraction and token verification
  (`extractBearerToken`, `getCognitoConfig`, `verifyToken`);
* the server auth resolver (`resolveServerAuth`, `toClientAuthMode`,
  `assertSupportedAuthMode`, `parseRequestAuthMode`);
* `server/api/utils/ownership.ts` — `assertOwnership`;
* `server/api/utils/api-error.ts` — `toHttpError` and its message patterns;
* the inline auth resolution of `server/api/posts/index.get.ts`.

TypeScript union types `string | null | undefined` are modelled as
`Option String`; JavaScript truthiness on such values (both `null`/`undefined`
and the empty string are falsy) is modelled by `strFalsy`.  Thrown `h3`
errors are modelled with `Except ApiError`.  The two Cognito JWT verifier
instances are opaque external collaborators and are modelled as oracle
functions `String → Option VerifyPayload` (`none` = the verify call threw).
Auth modes are kept as strings, as they are at the TypeScript runtime.
-/

/-- An `h3` `createError` payload: HTTP status code and message. -/
structure ApiError where
  statusCode : Nat
  statusMessage : String
deriving DecidableEq

/-- Result of a request-handling step: either a thrown `ApiError` or a value. -/
abbrev Result (α : Type) := Except ApiError α

deriving instance DecidableEq for Except

/-- `String.toLowerCase` restricted to its ASCII action, computed structurally
on the character list so that the kernel can evaluate it. -/
def toLowerStr (s : String) : String :=
  ⟨s.data.map Char.toLower⟩

/-- JavaScript `split(sep)` for a single-character separator: split on every
occurrence, keeping empty fields; the result is never empty. -/
def splitChar (sep : Char) : List Char → List (List Char)
  | [] => [[]]
  | c :: rest =>
    match splitChar sep rest with
    | [] => [[]]
    | w :: ws => if c = sep then [] :: w :: ws else (c :: w) :: ws

/-- JavaScript `header.split(' ')`. -/
def jsSplitSpace (s : String) : List String :=
  (splitChar ' ' s.data).map fun w => ⟨w⟩

/-- JavaScript truthiness test for a `string | null | undefined` value:
`null`, `undefined` and `""` are falsy. -/
def strFalsy : Option String → Bool
  | none => true
  | some s => decide (s = "")

/-- Substring test on character lists: does `pat` occur inside the list? -/
def containsSub (pat : List Char) : List Char → Bool
  | [] => pat.isEmpty
  | c :: rest => pat.isPrefixOf (c :: rest) || containsSub pat rest

/-- Case-insensitive substring test, the semantics of a `/i` regex whose
pattern is a literal alternative. -/
def containsCI (s pat : String) : Bool :=
  containsSub (toLowerStr pat).data (toLowerStr s).data

/- ## api-error.ts -/

/-- `unauthorizedPattern` of `server/api/utils/api-error.ts`:
`/missing bearer token|no current user|no federated jwt|token subject is missing|invalid or expired token/i`. -/
def unauthorizedPattern (message : String) : Bool :=
  containsCI message "missing bearer token" ||
  containsCI message "no current user" ||
  containsCI message "no federated jwt" ||
  containsCI message "token subject is missing" ||
  containsCI message "invalid or expired token"

/-- `forbiddenPattern` of `server/api/utils/api-error.ts`:
`/not authorized|unauthorized|forbidden/i`. -/
def forbiddenPattern (message : String) : Bool :=
  containsCI message "not authorized" ||
  containsCI message "unauthorized" ||
  containsCI message "forbidden"

/-- `toHttpError` of `server/api/utils/api-error.ts`. -/
def toHttpError (message : Option String) (fallback : ApiError) : ApiError :=
  if strFalsy message then fallback
  else
    let m := message.getD ""
    if unauthorizedPattern m then ⟨401, "Unauthorized"⟩
    else if forbiddenPattern m then ⟨403, "Forbidden"⟩
    else fallback

/- ## ownership.ts -/

/-- `assertOwnership` of `server/api/utils/ownership.ts`. -/
def assertOwnership (owner userSub : Option String) : Result Unit :=
  if strFalsy userSub then Except.error ⟨401, "Unauthorized"⟩
  else if ¬(strFalsy owner) ∧ owner ≠ userSub then Except.error ⟨403, "Forbidden"⟩
  else Except.ok ()

/- ## server/utils/cognito.ts -/

/-- The module-level `cognitoConfig` record read from `amplify_outputs.json`;
each field may be absent. -/
structure CognitoConfig where
  userPoolId : Option String
  clientId : Option String
  region : Option String
deriving DecidableEq

/-- The decoded claim set returned by a verifier; only the `sub` claim is
consumed by this layer, and `typeof payload.sub === 'string'` corresponds to
`sub` being `some`. -/
structure VerifyPayload where
  sub : Option String
deriving DecidableEq

/-- An external Cognito JWT verifier instance, as an oracle: `none` models the
`verify` call throwing (bad signature, expiry, issuer mismatch, malformed). -/
abbrev Verifier := String → Option VerifyPayload

/-- `ensureConfig` of `server/utils/cognito.ts`: note that only `userPoolId`
and `clientId` are tested (by JS truthiness); `region` is not. -/
def ensureConfig (c : CognitoConfig) : Result Unit :=
  if strFalsy c.userPoolId || strFalsy c.clientId then
    Except.error ⟨500, "Cognito configuration is missing"⟩
  else Except.ok ()

/-- `getCognitoConfig` of `server/utils/cognito.ts`. -/
def getCognitoConfig (c : CognitoConfig) : Result CognitoConfig := do
  let _ ← ensureConfig c
  Except.ok c

/-- `extractBearerToken` of `server/utils/cognito.ts`:
`const [type, token] = header.split(' ')`, then the scheme must lowercase to
`"bearer"` and the token slot must be truthy. -/
def extractBearerToken (header : Option String) : Option String :=
  match header with
  | none => none
  | some h =>
    if h = "" then none
    else
      match jsSplitSpace h with
      | ty :: tok :: _ =>
        if toLowerStr ty = "bearer" ∧ tok ≠ "" then some tok else none
      | _ => none

/-- `verifyToken` of `server/utils/cognito.ts`: re-reads the configuration via
`getCognitoConfig`, then tries the access-use verifier and, if it throws,
the id-use verifier; when both throw it fails with 401. The process-lifetime
caching of the two verifier instances has no effect on the returned value and
is not modelled. -/
def verifyToken (cfg : CognitoConfig) (accessVerifier idVerifier : Verifier)
    (token : String) : Result VerifyPayload := do
  let _ ← getCognitoConfig cfg
  match accessVerifier token with
  | some payload => Except.ok payload
  | none =>
    match idVerifier token with
    | some payload => Except.ok payload
    | none => Except.error ⟨401, "Invalid or expired token"⟩

/- ## server auth resolver -/

/-- `allowedAuthModes`, the four `RequestAuthMode` wire values. -/
def allowedAuthModes : List String := ["userPool", "identityPool", "iam", "apiKey"]

/-- `toClientAuthMode`: collapse `identityPool`/`iam` to the single `iam`
client mode; `userPool` and `apiKey` pass through. -/
def toClientAuthMode (mode : String) : String :=
  if mode = "identityPool" ∨ mode = "iam" then "iam" else mode

/-- `assertSupportedAuthMode`: absent (falsy) modes pass; otherwise the mode
must be in `allowedAuthModes`. -/
def assertSupportedAuthMode (mode : Option String) : Result Unit :=
  if strFalsy mode then Except.ok ()
  else if mode.getD "" ∈ allowedAuthModes then Except.ok ()
  else Except.error ⟨400, "Unsupported auth mode"⟩

/-- `parseRequestAuthMode`: a raw query value parses to itself when it is one
of the four allowed modes, and to absent otherwise. -/
def parseRequestAuthMode (value : Option String) : Option String :=
  match value with
  | none => none
  | some s =>
    if s = "" then none
    else if s ∈ allowedAuthModes then some s else none

/-- `ResolvedServerAuth`: the resolver's result record. `authToken` is set
only on escalation to `userPool`; `userSub` only when a verified subject was
extracted. -/
structure ResolvedServerAuth where
  authMode : String
  amplifyAuthMode : String
  authToken : Option String
  userSub : Option String
deriving DecidableEq

/-- The shared tail of `resolveServerAuth`: default the resolved mode when it
is falsy, re-assert it is supported, and map it to the client auth mode. -/
def finishResolve (resolved : Option String) (defaultAuthMode : String)
    (authToken userSub : Option String) : Result ResolvedServerAuth := do
  let mode := if strFalsy resolved then defaultAuthMode else resolved.getD ""
  let _ ← assertSupportedAuthMode (some mode)
  Except.ok ⟨mode, toClientAuthMode mode, authToken, userSub⟩

/-- `resolveServerAuth`: validate the requested mode, extract the bearer
token, escalate to `userPool` (verifying the token and requiring a truthy
string `sub` claim) when a token is present and
`requireToken || !requestedAuthMode || requestedAuthMode === 'userPool'`;
fail 401 when no token is present but one is mandatory; otherwise resolve to
the requested mode or the default. -/
def resolveServerAuth (cfg : CognitoConfig) (accessVerifier idVerifier : Verifier)
    (requestedAuthMode : Option String) (requireToken : Bool)
    (defaultAuthMode : String) (header : Option String) : Result ResolvedServerAuth := do
  let _ ← assertSupportedAuthMode requestedAuthMode
  match extractBearerToken header with
  | some tok =>
    if requireToken ∨ strFalsy requestedAuthMode ∨ requestedAuthMode = some "userPool" then do
      let _ ← getCognitoConfig cfg
      let payload ← verifyToken cfg accessVerifier idVerifier tok
      match payload.sub with
      | some s =>
        if s = "" then Except.error ⟨401, "Token subject is missing"⟩
        else finishResolve (some "userPool") defaultAuthMode (some tok) (some s)
      | none => Except.error ⟨401, "Token subject is missing"⟩
    else
      finishResolve requestedAuthMode defaultAuthMode none none
  | none =>
    if requireToken ∨ requestedAuthMode = some "userPool" then
      Except.error ⟨401, "Missing bearer token"⟩
    else
      finishResolve requestedAuthMode defaultAuthMode none none

/- ## server/api/posts/index.get.ts — inline auth resolution -/

/-- The auth-relevant part of the options handed to the record store by the
list-posts handler: `options.authMode` and `options.authToken`. -/
structure ListPostsOptions where
  authMode : Option String
  authToken : Option String
deriving DecidableEq

/-- The inline access-mode resolution of `server/api/posts/index.get.ts`, up
to the record-store call: parse the `authMode` query parameter, reject an
explicit unsupported mode, escalate to `userPool` when it was requested or a
token accompanies an absent mode (checking configuration before token
presence), and otherwise pass the requested mode through unmapped. -/
def listPostsResolve (cfg : CognitoConfig) (accessVerifier idVerifier : Verifier)
    (authModeParam : Option String) (header : Option String) : Result ListPostsOptions := do
  let hasExplicitAuthMode := !(strFalsy authModeParam)
  let requestedAuthMode : Option String :=
    if authModeParam.getD "" ∈ allowedAuthModes then authModeParam else none
  if hasExplicitAuthMode ∧ requestedAuthMode = none then
    Except.error ⟨400, "Unsupported auth mode"⟩
  else
    let token := extractBearerToken header
    if requestedAuthMode = some "userPool" ∨ (strFalsy requestedAuthMode ∧ token.isSome) then do
      let _ ← getCognitoConfig cfg
      match token with
      | none => Except.error ⟨401, "Missing bearer token"⟩
      | some tok => do
        let payload ← verifyToken cfg accessVerifier idVerifier tok
        match payload.sub with
        | some s =>
          if s = "" then Except.error ⟨401, "Token subject is missing"⟩
          else Except.ok ⟨some "userPool", some tok⟩
        | none => Except.error ⟨401, "Token subject is missing"⟩
    else
      let resolved :=
        if strFalsy requestedAuthMode then
          if hasExplicitAuthMode then requestedAuthMode else some "identityPool"
        else requestedAuthMode
      Except.ok ⟨if strFalsy resolved then none else resolved, none⟩

/- ## Concrete fixtures used by witnesses and counterexamples -/

/-- A complete Cognito configuration. -/
def sampleConfig : CognitoConfig := ⟨some "pool", some "client", some "region"⟩

/-- A verifier accepting exactly the token `"tok"` with subject `"user-1"`. -/
def acceptTokVerifier : Verifier := fun t => if t = "tok" then some ⟨some "user-1"⟩ else none

/-- A verifier that rejects every token. -/
def rejectVerifier : Verifier := fun _ => none

/-- A verifier accepting `"tok"` but yielding an empty-string `sub` claim. -/
def emptySubVerifier : Verifier := fun t => if t = "tok" then some ⟨some ""⟩ else none

/- ## Helper lemmas -/

theorem getCognitoConfig_of_ensure {cfg : CognitoConfig}
    (h : ensureConfig cfg = Except.ok ()) : getCognitoConfig cfg = Except.ok cfg := by
  unfold getCognitoConfig
  rw [h]
  rfl

theorem verifyToken_eq (cfg : CognitoConfig) (av iv : Verifier) (tok : String)
    (h : ensureConfig cfg = Except.ok ()) :
    verifyToken cfg av iv tok =
      match av tok with
      | some p => Except.ok p
      | none =>
        match iv tok with
        | some q => Except.ok q
        | none => Except.error ⟨401, "Invalid or expired token"⟩ := by
  unfold verifyToken
  rw [getCognitoConfig_of_ensure h]
  rfl

theorem ensure_of_verifyToken_ok {cfg : CognitoConfig} {av iv : Verifier} {tok : String}
    {p : VerifyPayload} (h : verifyToken cfg av iv tok = Except.ok p) :
    ensureConfig cfg = Except.ok () := by
  cases hE : ensureConfig cfg with
  | ok u => cases u; rfl
  | error e =>
    exfalso
    unfold verifyToken getCognitoConfig at h
    rw [hE] at h
    simp [bind, Except.bind] at h

theorem finishResolve_userPool (d : String) (tk us : Option String) :
    finishResolve (some "userPool") d tk us = Except.ok ⟨"userPool", "userPool", tk, us⟩ := rfl

theorem finishResolve_pass (m : String) (hm : m ∈ allowedAuthModes) (d : String)
    (tk us : Option String) :
    finishResolve (some m) d tk us = Except.ok ⟨m, toClientAuthMode m, tk, us⟩ := by
  fin_cases hm <;> rfl

theorem finishResolve_default (d : String) (hd : d ∈ allowedAuthModes) (tk us : Option String) :
    finishResolve none d tk us = Except.ok ⟨d, toClientAuthMode d, tk, us⟩ := by
  fin_cases hd <;> rfl

theorem finishResolve_empty (d : String) (hd : d ∈ allowedAuthModes) (tk us : Option String) :
    finishResolve (some "") d tk us = Except.ok ⟨d, toClientAuthMode d, tk, us⟩ := by
  fin_cases hd <;> rfl

theorem assertSupported_of_mem {param : Option String}
    (h : param = none ∨ param.getD "" ∈ allowedAuthModes) :
    assertSupportedAuthMode param = Except.ok () := by
  rcases h with h | h
  · subst h; rfl
  · cases param with
    | none => rfl
    | some m =>
      simp only [Option.getD_some] at h
      fin_cases h <;> rfl

theorem resolveServerAuth_escalation_eq (cfg : CognitoConfig) (av iv : Verifier)
    (param : Option String) (rt : Bool) (d : String) (header : Option String)
    (tok : String) (p : VerifyPayload)
    (hsup : assertSupportedAuthMode param = Except.ok ())
    (htok : extractBearerToken header = some tok)
    (hcond : rt = true ∨ strFalsy param = true ∨ param = some "userPool")
    (hver : verifyToken cfg av iv tok = Except.ok p) :
    resolveServerAuth cfg av iv param rt d header =
      match p.sub with
      | some s =>
        if s = "" then Except.error ⟨401, "Token subject is missing"⟩
        else Except.ok ⟨"userPool", "userPool", some tok, some s⟩
      | none => Except.error ⟨401, "Token subject is missing"⟩ := by
  have hc : ensureConfig cfg = Except.ok () := ensure_of_verifyToken_ok hver
  unfold resolveServerAuth
  rw [hsup]
  simp only [bind, Except.bind, htok]
  rw [if_pos hcond, getCognitoConfig_of_ensure hc]
  simp only [bind, Except.bind, hver]
  cases hsub : p.sub with
  | none => rfl
  | some s =>
    by_cases hs : s = "" <;> simp [hs, finishResolve_userPool]

theorem resolveServerAuth_no_escalation_eq (cfg : CognitoConfig) (av iv : Verifier)
    (param : Option String) (rt : Bool) (d : String) (header : Option String) (tok : String)
    (hsup : assertSupportedAuthMode param = Except.ok ())
    (htok : extractBearerToken header = some tok)
    (hcond : ¬(rt = true ∨ strFalsy param = true ∨ param = some "userPool")) :
    resolveServerAuth cfg av iv param rt d header = finishResolve param d none none := by
  unfold resolveServerAuth
  rw [hsup]
  simp only [bind, Except.bind, htok]
  rw [if_neg hcond]

theorem resolveServerAuth_no_token_eq (cfg : CognitoConfig) (av iv : Verifier)
    (param : Option String) (rt : Bool) (d : String) (header : Option String)
    (hsup : assertSupportedAuthMode param = Except.ok ())
    (htok : extractBearerToken header = none) :
    resolveServerAuth cfg av iv param rt d header =
      if rt = true ∨ param = some "userPool" then Except.error ⟨401, "Missing bearer token"⟩
      else finishResolve param d none none := by
  unfold resolveServerAuth
  rw [hsup]
  simp only [bind, Except.bind, htok]

/- ## Claim theorems -/

/-- C2 counterexample: `assertOwnership (some "") (some "caller")` permits the
mutation although the record owner (`""`) is non-null and differs from the
caller subject, where the claim demands `Forbidden`: JS truthiness treats the
empty-string owner as absent. -/
theorem assertOwnership_empty_owner_counterexample :
    assertOwnership (some "") (some "caller") = Except.ok () ∧
    some "" ≠ (none : Option String) ∧ "" ≠ "caller" := by decide

/-- C2 (amended): `assertOwnership` fails `Unauthenticated` (401) when the
caller subject is null, undefined or empty; otherwise it permits when the
record owner is null, undefined or empty, fails `Forbidden` (403) exactly when
the (non-empty) owner differs from the caller subject, and permits when they
coincide. -/
theorem assertOwnership_characterization (owner userSub : Option String) :
    assertOwnership owner userSub =
      if strFalsy userSub then Except.error ⟨401, "Unauthorized"⟩
      else if strFalsy owner then Except.ok ()
      else if owner ≠ userSub then Except.error ⟨403, "Forbidden"⟩
      else Except.ok () := by
  unfold assertOwnership
  by_cases h1 : strFalsy userSub
  · simp [h1]
  · by_cases h2 : strFalsy owner
    · simp [h1, h2]
    · by_cases h3 : owner = userSub <;> simp [h1, h2, h3]

/-- C8: classification by `toHttpError` is total and ordered: a message
matching the missing/invalid-credential pattern maps to 401 `Unauthorized`
(this class is tested first, so a message also matching the denial pattern
still maps to 401); otherwise a message matching the authorization-denial
pattern maps to 403 `Forbidden`; otherwise the caller-supplied fallback is
returned; and every message yields exactly one of these three. -/
theorem toHttpError_total_ordered (message : String) (fallback : ApiError) :
    (unauthorizedPattern message = true →
      toHttpError (some message) fallback = ⟨401, "Unauthorized"⟩) ∧
    (unauthorizedPattern message = false → forbiddenPattern message = true →
      toHttpError (some message) fallback = ⟨403, "Forbidden"⟩) ∧
    (unauthorizedPattern message = false → forbiddenPattern message = false →
      toHttpError (some message) fallback = fallback) ∧
    (toHttpError (some message) fallback = ⟨401, "Unauthorized"⟩ ∨
     toHttpError (some message) fallback = ⟨403, "Forbidden"⟩ ∨
     toHttpError (some message) fallback = fallback) := by
  by_cases hm : message = ""
  · subst hm
    refine ⟨?_, ?_, ?_, Or.inr (Or.inr rfl)⟩
    · intro hu; exact absurd hu (by decide)
    · intro _ hf; exact absurd hf (by decide)
    · intro _ _; rfl
  · have hfal : strFalsy (some message) = false := by simp [strFalsy, hm]
    refine ⟨?_, ?_, ?_, ?_⟩
    · intro hu; simp [toHttpError, hfal, hu]
    · intro hu hf; simp [toHttpError, hfal, hu, hf]
    · intro hu hf; simp [toHttpError, hfal, hu, hf]
    · cases hu : unauthorizedPattern message with
      | true => exact Or.inl (by simp [toHttpError, hfal, hu])
      | false =>
        cases hf : forbiddenPattern message with
        | true => exact Or.inr (Or.inl (by simp [toHttpError, hfal, hu, hf]))
        | false => exact Or.inr (Or.inr (by simp [toHttpError, hfal, hu, hf]))

/-- C8 witness: a message matching both pattern classes classifies as 401
`Unauthorized`, because the credential patterns are tested first. -/
theorem toHttpError_total_ordered_witness :
    unauthorizedPattern "invalid or expired token unauthorized" = true ∧
    forbiddenPattern "invalid or expired token unauthorized" = true ∧
    toHttpError (some "invalid or expired token unauthorized") ⟨500, "Internal"⟩
      = ⟨401, "Unauthorized"⟩ :=
  ⟨by decide, by decide,
    (toHttpError_total_ordered "invalid or expired token unauthorized"
      ⟨500, "Internal"⟩).1 (by decide)⟩

/-- C9 counterexample: for the header `"Bearer a b"` the extractor returns
only the second space-delimited field `"a"`, not everything after the first
space (`"a b"`): `const [type, token] = header.split(' ')` discards the rest. -/
theorem extractBearerToken_second_field_counterexample :
    extractBearerToken (some "Bearer a b") = some "a" ∧
    (some "a" : Option String) ≠ some "a b" := by decide

/-- C9 (amended): for every header value, the extractor splits on every
space, requires the first field to equal `Bearer` case-insensitively and the
second field to be present and non-empty, and returns that second field (the
content between the first and second space) as the token; it returns null
(never throwing) on a missing header, missing scheme, missing value, or wrong
scheme. -/
theorem extractBearerToken_characterization :
    (∀ header : Option String, extractBearerToken header =
      match header with
      | none => none
      | some h =>
        if h = "" then none
        else
          match (jsSplitSpace h)[1]? with
          | none => none
          | some tok =>
            if toLowerStr ((jsSplitSpace h).headD "") = "bearer" ∧ tok ≠ "" then some tok
            else none) ∧
    extractBearerToken none = none ∧
    extractBearerToken (some "Token xyz") = none ∧
    extractBearerToken (some "Bearer") = none ∧
    extractBearerToken (some "Bearer ") = none ∧
    extractBearerToken (some "bEaReR tok") = some "tok" ∧
    extractBearerToken (some "Bearer a b") = some "a" := by
  refine ⟨?_, by decide, by decide, by decide, by decide, by decide, by decide⟩
  intro header
  cases header with
  | none => rfl
  | some h =>
    by_cases hh : h = ""
    · simp [extractBearerToken, hh]
    · simp only [extractBearerToken, if_neg hh]
      cases hsplit : jsSplitSpace h with
      | nil => simp
      | cons ty rest =>
        cases rest with
        | nil => simp
        | cons tok rest2 => simp [List.headD]

theorem finishResolve_ok_elim {resolved : Option String} {d : String} {tk us : Option String}
    {r : ResolvedServerAuth} (h : finishResolve resolved d tk us = Except.ok r) :
    r.authMode = (if strFalsy resolved then d else resolved.getD "") ∧
    r.amplifyAuthMode = toClientAuthMode r.authMode ∧ r.authToken = tk ∧ r.userSub = us := by
  cases hA : assertSupportedAuthMode (some (if strFalsy resolved then d else resolved.getD "")) with
  | error e =>
    exfalso
    simp only [finishResolve, bind, Except.bind, hA] at h
    exact Except.noConfusion h
  | ok u =>
    cases u
    simp only [finishResolve, bind, Except.bind, hA, Except.ok.injEq] at h
    subst h
    exact ⟨rfl, rfl, rfl, rfl⟩

theorem mem_allowed_ne_empty {m : String} (h : m ∈ allowedAuthModes) : m ≠ "" := by
  fin_cases h <;> decide

theorem strFalsy_some_of_ne {m : String} (h : m ≠ "") : strFalsy (some m) = false := by
  simp [strFalsy, h]

/-- C1 counterexample: with a token whose verified payload carries the
string subject `""`, the resolver fails `MissingSubject` although the payload
does have a string subject — `!userSub` treats the empty string as missing. -/
theorem resolveServerAuth_empty_subject_counterexample :
    emptySubVerifier "tok" = some ⟨some ""⟩ ∧
    resolveServerAuth sampleConfig emptySubVerifier rejectVerifier none false "identityPool"
      (some "Bearer tok") = Except.error ⟨401, "Token subject is missing"⟩ := by decide

/-- C1 (amended): when a bearer token was extracted and (`requireToken`, or no
requested mode, or requested mode `userPool`), and the token verifies to
payload `p`, the call fails `MissingSubject` (401, "Token subject is missing")
when `p` has no non-empty string subject, and otherwise resolves to `userPool`
with the verified token retained as `authToken` and the subject returned. -/
theorem resolveServerAuth_token_escalation (cfg : CognitoConfig) (av iv : Verifier)
    (param : Option String) (requireToken : Bool) (defaultAuthMode : String)
    (header : Option String) (tok : String) (p : VerifyPayload)
    (htok : extractBearerToken header = some tok)
    (hcond : requireToken = true ∨ strFalsy param = true ∨ param = some "userPool")
    (hsup : assertSupportedAuthMode param = Except.ok ())
    (hver : verifyToken cfg av iv tok = Except.ok p) :
    resolveServerAuth cfg av iv param requireToken defaultAuthMode header =
      match p.sub with
      | some s =>
        if s = "" then Except.error ⟨401, "Token subject is missing"⟩
        else Except.ok ⟨"userPool", "userPool", some tok, some s⟩
      | none => Except.error ⟨401, "Token subject is missing"⟩ :=
  resolveServerAuth_escalation_eq cfg av iv param requireToken defaultAuthMode header tok p
    hsup htok hcond hver

/-- C1 witness: a concrete escalation — absent requested mode, valid token
for subject `user-1` — resolves to `userPool` retaining token and subject. -/
theorem resolveServerAuth_token_escalation_witness :
    extractBearerToken (some "Bearer tok") = some "tok" ∧
    verifyToken sampleConfig acceptTokVerifier rejectVerifier "tok" = Except.ok ⟨some "user-1"⟩ ∧
    resolveServerAuth sampleConfig acceptTokVerifier rejectVerifier none false "identityPool"
      (some "Bearer tok") = Except.ok ⟨"userPool", "userPool", some "tok", some "user-1"⟩ :=
  ⟨by decide, by decide, by
    have h := resolveServerAuth_token_escalation sampleConfig acceptTokVerifier rejectVerifier
      none false "identityPool" (some "Bearer tok") "tok" ⟨some "user-1"⟩
      (by decide) (Or.inr (Or.inl (by decide))) (by decide) (by decide)
    simpa using h⟩

/-- C3 counterexample: a request with a valid bearer token (subject `user-1`)
but an explicitly requested `identityPool` mode and `requireToken = false` is
not escalated: the resolved mode stays `identityPool` and no subject is
returned, where the claim demands escalation to `userPool`. -/
theorem resolveServerAuth_identityPool_counterexample :
    acceptTokVerifier "tok" = some ⟨some "user-1"⟩ ∧
    resolveServerAuth sampleConfig acceptTokVerifier rejectVerifier (some "identityPool")
      false "identityPool" (some "Bearer tok")
      = Except.ok ⟨"identityPool", "iam", none, none⟩ ∧
    "identityPool" ≠ "userPool" ∧
    (⟨"identityPool", "iam", none, none⟩ : ResolvedServerAuth).userSub = none := by decide

/-- C3 (amended): for a request carrying a valid bearer token (one that
verifies to a payload with non-empty string subject `s`), resolution
escalates to `userPool` retaining token and subject exactly when
`requireToken` is true, no mode was requested, or `userPool` was requested;
an explicitly requested `identityPool` — like `iam` and `apiKey` — with
`requireToken` false is not escalated. -/
theorem resolveServerAuth_escalation_iff (cfg : CognitoConfig) (av iv : Verifier)
    (param : Option String) (requireToken : Bool) (defaultAuthMode : String)
    (header : Option String) (tok : String) (p : VerifyPayload) (s : String)
    (htok : extractBearerToken header = some tok)
    (hver : verifyToken cfg av iv tok = Except.ok p)
    (hsub : p.sub = some s) (hs : s ≠ "")
    (hsup : assertSupportedAuthMode param = Except.ok ()) :
    resolveServerAuth cfg av iv param requireToken defaultAuthMode header
        = Except.ok ⟨"userPool", "userPool", some tok, some s⟩
      ↔ (requireToken = true ∨ strFalsy param = true ∨ param = some "userPool") := by
  constructor
  · intro hres
    by_cases hcond : requireToken = true ∨ strFalsy param = true ∨ param = some "userPool"
    · exact hcond
    · exfalso
      rw [resolveServerAuth_no_escalation_eq cfg av iv param requireToken defaultAuthMode
        header tok hsup htok hcond] at hres
      have hfields := finishResolve_ok_elim hres
      exact Option.noConfusion hfields.2.2.1
  · intro hcond
    rw [resolveServerAuth_escalation_eq cfg av iv param requireToken defaultAuthMode header
      tok p hsup htok hcond hver, hsub]
    simp [hs]

/-- C3 witness: with `requireToken = false` and requested mode `identityPool`,
the escalated result is not produced (right side of the iff is false). -/
theorem resolveServerAuth_escalation_iff_witness :
    extractBearerToken (some "Bearer tok") = some "tok" ∧
    (resolveServerAuth sampleConfig acceptTokVerifier rejectVerifier (some "identityPool")
        false "identityPool" (some "Bearer tok")
        = Except.ok ⟨"userPool", "userPool", some "tok", some "user-1"⟩
      ↔ (false = true ∨ strFalsy (some "identityPool") = true ∨
          (some "identityPool" : Option String) = some "userPool")) :=
  ⟨by decide,
    resolveServerAuth_escalation_iff sampleConfig acceptTokVerifier rejectVerifier
      (some "identityPool") false "identityPool" (some "Bearer tok") "tok" ⟨some "user-1"⟩
      "user-1" (by decide) (by decide) rfl (by decide) (by decide)⟩

/-- C4: when no bearer token was extracted and a token is mandatory
(`requireToken` true or requested mode `userPool`), `resolveServerAuth` fails
with `MissingCredential` (401, "Missing bearer token"); the error is raised
inside the resolver itself, before any record-store interaction, and for any
configuration and verifiers. -/
theorem resolveServerAuth_missing_credential (cfg : CognitoConfig) (av iv : Verifier)
    (param : Option String) (requireToken : Bool) (defaultAuthMode : String)
    (header : Option String)
    (htok : extractBearerToken header = none)
    (hcond : requireToken = true ∨ param = some "userPool")
    (hsup : assertSupportedAuthMode param = Except.ok ()) :
    resolveServerAuth cfg av iv param requireToken defaultAuthMode header
      = Except.error ⟨401, "Missing bearer token"⟩ := by
  rw [resolveServerAuth_no_token_eq cfg av iv param requireToken defaultAuthMode header
    hsup htok, if_pos hcond]

/-- C4 witness: requested mode `userPool` with no authorization header fails
with 401 "Missing bearer token". -/
theorem resolveServerAuth_missing_credential_witness :
    extractBearerToken none = none ∧
    resolveServerAuth sampleConfig acceptTokVerifier rejectVerifier (some "userPool")
      false "identityPool" none = Except.error ⟨401, "Missing bearer token"⟩ :=
  ⟨rfl, resolveServerAuth_missing_credential sampleConfig acceptTokVerifier rejectVerifier
    (some "userPool") false "identityPool" none rfl (Or.inr rfl) (by decide)⟩

/-- C5: when the escalation branch is not taken (whenever a token is present,
`requireToken` is false, a mode was requested, and it is not `userPool`) and
the resolver succeeds, the resolved mode is the requested mode when one was
supplied and the supplied default otherwise; the returned downstream mode is
`toClientAuthMode` of the resolved mode, which maps `identityPool` and `iam`
to `iam` and passes `userPool` and `apiKey` through unchanged. -/
theorem resolveServerAuth_no_escalation_resolution (cfg : CognitoConfig) (av iv : Verifier)
    (param : Option String) (requireToken : Bool) (defaultAuthMode : String)
    (header : Option String) (r : ResolvedServerAuth)
    (hparam : param = none ∨ param.getD "" ∈ allowedAuthModes)
    (hne : ∀ tok, extractBearerToken header = some tok →
      requireToken = false ∧ strFalsy param = false ∧ param ≠ some "userPool")
    (hres : resolveServerAuth cfg av iv param requireToken defaultAuthMode header
      = Except.ok r) :
    r.authMode = param.getD defaultAuthMode ∧
    r.amplifyAuthMode = toClientAuthMode r.authMode ∧
    toClientAuthMode "identityPool" = "iam" ∧ toClientAuthMode "iam" = "iam" ∧
    toClientAuthMode "userPool" = "userPool" ∧ toClientAuthMode "apiKey" = "apiKey" := by
  have hsup := assertSupported_of_mem hparam
  have key : r.authMode = param.getD defaultAuthMode ∧
      r.amplifyAuthMode = toClientAuthMode r.authMode := by
    cases htok : extractBearerToken header with
    | some tok =>
      obtain ⟨hrt, hfal, hup⟩ := hne tok htok
      have hcond : ¬(requireToken = true ∨ strFalsy param = true ∨ param = some "userPool") := by
        rintro (h | h | h)
        · rw [hrt] at h; exact Bool.noConfusion h
        · rw [hfal] at h; exact Bool.noConfusion h
        · exact hup h
      rw [resolveServerAuth_no_escalation_eq cfg av iv param requireToken defaultAuthMode
        header tok hsup htok hcond] at hres
      have hfields := finishResolve_ok_elim hres
      cases param with
      | none => exact absurd hfal (by simp [strFalsy])
      | some m =>
        refine ⟨?_, hfields.2.1⟩
        rw [hfields.1, hfal]
        simp
    | none =>
      rw [resolveServerAuth_no_token_eq cfg av iv param requireToken defaultAuthMode
        header hsup htok] at hres
      by_cases hcond : requireToken = true ∨ param = some "userPool"
      · rw [if_pos hcond] at hres; exact absurd hres (by simp)
      · rw [if_neg hcond] at hres
        have hfields := finishResolve_ok_elim hres
        cases param with
        | none => exact ⟨by rw [hfields.1]; simp [strFalsy], hfields.2.1⟩
        | some m =>
          rcases hparam with hp | hp
          · exact Option.noConfusion hp
          · simp only [Option.getD_some] at hp
            have hm : m ≠ "" := mem_allowed_ne_empty hp
            refine ⟨?_, hfields.2.1⟩
            rw [hfields.1, strFalsy_some_of_ne hm]
            simp
  exact ⟨key.1, key.2, rfl, rfl, rfl, rfl⟩

/-- C5 witness: requested mode `apiKey`, no token: the resolver returns
`apiKey` with downstream mode `apiKey`. -/
theorem resolveServerAuth_no_escalation_resolution_witness :
    resolveServerAuth sampleConfig rejectVerifier rejectVerifier (some "apiKey")
      false "identityPool" none = Except.ok ⟨"apiKey", "apiKey", none, none⟩ ∧
    (⟨"apiKey", "apiKey", none, none⟩ : ResolvedServerAuth).authMode
      = (some "apiKey").getD "identityPool" ∧
    (⟨"apiKey", "apiKey", none, none⟩ : ResolvedServerAuth).amplifyAuthMode
      = toClientAuthMode "apiKey" :=
  ⟨by decide,
    (resolveServerAuth_no_escalation_resolution sampleConfig rejectVerifier rejectVerifier
      (some "apiKey") false "identityPool" none ⟨"apiKey", "apiKey", none, none⟩
      (Or.inr (by decide)) (fun tok h => nomatch h) (by decide)).1,
    (resolveServerAuth_no_escalation_resolution sampleConfig rejectVerifier rejectVerifier
      (some "apiKey") false "identityPool" none ⟨"apiKey", "apiKey", none, none⟩
      (Or.inr (by decide)) (fun tok h => nomatch h) (by decide)).2.1⟩

/-- C6 counterexample: with `region` absent but `userPoolId` and `clientId`
present, `verifyToken` does not fail `ConfigurationMissing` — it verifies and
succeeds: `ensureConfig` never inspects `region`. -/
theorem verifyToken_region_not_checked_counterexample :
    (⟨some "pool", some "client", none⟩ : CognitoConfig).region = none ∧
    verifyToken ⟨some "pool", some "client", none⟩ acceptTokVerifier rejectVerifier "tok"
      = Except.ok ⟨some "user-1"⟩ := by decide

/-- C6 (amended): on every call, if `userPoolId` or `clientId` is absent (or
empty), `verifyToken` fails with `ConfigurationMissing` (500, "Cognito
configuration is missing") before any verification attempt — for arbitrary
verifier behaviour — and `getCognitoConfig` fails identically; `region` is
not part of the check. -/
theorem verifyToken_config_check (cfg : CognitoConfig) (av iv : Verifier) (tok : String)
    (h : strFalsy cfg.userPoolId = true ∨ strFalsy cfg.clientId = true) :
    verifyToken cfg av iv tok = Except.error ⟨500, "Cognito configuration is missing"⟩ ∧
    getCognitoConfig cfg = Except.error ⟨500, "Cognito configuration is missing"⟩ := by
  have hE : ensureConfig cfg = Except.error ⟨500, "Cognito configuration is missing"⟩ := by
    unfold ensureConfig
    rcases h with h | h <;> simp [h]
  constructor
  · unfold verifyToken getCognitoConfig
    rw [hE]
    rfl
  · unfold getCognitoConfig
    rw [hE]
    rfl

/-- C6 witness: with `clientId` missing the call fails `ConfigurationMissing`
even though the access verifier would have accepted the token. -/
theorem verifyToken_config_check_witness :
    strFalsy (⟨some "pool", none, some "region"⟩ : CognitoConfig).clientId = true ∧
    acceptTokVerifier "tok" = some ⟨some "user-1"⟩ ∧
    verifyToken ⟨some "pool", none, some "region"⟩ acceptTokVerifier rejectVerifier "tok"
      = Except.error ⟨500, "Cognito configuration is missing"⟩ :=
  ⟨by decide, by decide,
    (verifyToken_config_check ⟨some "pool", none, some "region"⟩ acceptTokVerifier
      rejectVerifier "tok" (Or.inr (by decide))).1⟩

/-- C7: with complete configuration, `verifyToken` first consults the
access-use verifier, falls back to the identity-use verifier on its failure,
returns the payload of the first attempt that succeeds, and fails with
`InvalidToken` (401, "Invalid or expired token") if and only if both attempts
fail. -/
theorem verifyToken_fallback_order (cfg : CognitoConfig) (av iv : Verifier) (tok : String)
    (hc : ensureConfig cfg = Except.ok ()) :
    (verifyToken cfg av iv tok =
      match av tok with
      | some p => Except.ok p
      | none =>
        match iv tok with
        | some q => Except.ok q
        | none => Except.error ⟨401, "Invalid or expired token"⟩) ∧
    (verifyToken cfg av iv tok = Except.error ⟨401, "Invalid or expired token"⟩ ↔
      av tok = none ∧ iv tok = none) := by
  have h := verifyToken_eq cfg av iv tok hc
  refine ⟨h, ?_⟩
  rw [h]
  cases hav : av tok with
  | some p => simp
  | none =>
    cases hiv : iv tok with
    | some q => simp
    | none => simp

/-- C7 witness: the access-use verifier rejects `"tok"` but the identity-use
verifier accepts it, so verification succeeds with the id verifier's payload. -/
theorem verifyToken_fallback_order_witness :
    ensureConfig sampleConfig = Except.ok () ∧
    rejectVerifier "tok" = none ∧
    acceptTokVerifier "tok" = some ⟨some "user-1"⟩ ∧
    verifyToken sampleConfig rejectVerifier acceptTokVerifier "tok"
      = Except.ok ⟨some "user-1"⟩ :=
  ⟨by decide, by decide, by decide, by
    have h := (verifyToken_fallback_order sampleConfig rejectVerifier acceptTokVerifier "tok"
      (by decide)).1
    simpa using h⟩

theorem listPostsResolve_none_eq (cfg : CognitoConfig) (av iv : Verifier)
    (header : Option String) :
    listPostsResolve cfg av iv none header =
      match extractBearerToken header with
      | none => Except.ok ⟨some "identityPool", none⟩
      | some tok =>
        Except.bind (getCognitoConfig cfg) fun _ =>
          Except.bind (verifyToken cfg av iv tok) fun payload =>
            match payload.sub with
            | some s =>
              if s = "" then Except.error ⟨401, "Token subject is missing"⟩
              else Except.ok ⟨some "userPool", some tok⟩
            | none => Except.error ⟨401, "Token subject is missing"⟩ := by
  cases htok : extractBearerToken header with
  | none =>
    unfold listPostsResolve
    rw [htok]
    rfl
  | some tok =>
    unfold listPostsResolve
    rw [htok]
    rfl

theorem listPostsResolve_empty_eq (cfg : CognitoConfig) (av iv : Verifier)
    (header : Option String) :
    listPostsResolve cfg av iv (some "") header =
      match extractBearerToken header with
      | none => Except.ok ⟨some "identityPool", none⟩
      | some tok =>
        Except.bind (getCognitoConfig cfg) fun _ =>
          Except.bind (verifyToken cfg av iv tok) fun payload =>
            match payload.sub with
            | some s =>
              if s = "" then Except.error ⟨401, "Token subject is missing"⟩
              else Except.ok ⟨some "userPool", some tok⟩
            | none => Except.error ⟨401, "Token subject is missing"⟩ := by
  cases htok : extractBearerToken header with
  | none =>
    unfold listPostsResolve
    rw [htok]
    rfl
  | some tok =>
    unfold listPostsResolve
    rw [htok]
    rfl

theorem listPostsResolve_userPool_eq (cfg : CognitoConfig) (av iv : Verifier)
    (header : Option String) :
    listPostsResolve cfg av iv (some "userPool") header =
      Except.bind (getCognitoConfig cfg) fun _ =>
        match extractBearerToken header with
        | none => Except.error ⟨401, "Missing bearer token"⟩
        | some tok =>
          Except.bind (verifyToken cfg av iv tok) fun payload =>
            match payload.sub with
            | some s =>
              if s = "" then Except.error ⟨401, "Token subject is missing"⟩
              else Except.ok ⟨some "userPool", some tok⟩
            | none => Except.error ⟨401, "Token subject is missing"⟩ := rfl

theorem listPostsResolve_pass_eq (cfg : CognitoConfig) (av iv : Verifier)
    (header : Option String) (m : String)
    (hm : m ∈ allowedAuthModes) (hup : m ≠ "userPool") :
    listPostsResolve cfg av iv (some m) header = Except.ok ⟨some m, none⟩ := by
  fin_cases hm
  · exact absurd rfl hup
  · rfl
  · rfl
  · rfl

theorem listPostsResolve_unsupported_eq (cfg : CognitoConfig) (av iv : Verifier)
    (header : Option String) (s : String)
    (hse : s ≠ "") (hmem : s ∉ allowedAuthModes) :
    listPostsResolve cfg av iv (some s) header = Except.error ⟨400, "Unsupported auth mode"⟩ := by
  unfold listPostsResolve
  simp only [Option.getD_some, if_neg hmem, strFalsy_some_of_ne hse]
  simp

theorem resolveServerAuth_unsupported (cfg : CognitoConfig) (av iv : Verifier)
    (rt : Bool) (d : String) (header : Option String) (s : String)
    (hse : s ≠ "") (hmem : s ∉ allowedAuthModes) :
    resolveServerAuth cfg av iv (some s) rt d header
      = Except.error ⟨400, "Unsupported auth mode"⟩ := by
  have hA : assertSupportedAuthMode (some s) = Except.error ⟨400, "Unsupported auth mode"⟩ := by
    unfold assertSupportedAuthMode
    rw [strFalsy_some_of_ne hse]
    simp [hmem]
  unfold resolveServerAuth
  rw [hA]
  rfl

theorem resolveServerAuth_escalation_err (cfg : CognitoConfig) (av iv : Verifier)
    (param : Option String) (rt : Bool) (d : String) (header : Option String)
    (tok : String) (e : ApiError)
    (hsup : assertSupportedAuthMode param = Except.ok ())
    (htok : extractBearerToken header = some tok)
    (hcond : rt = true ∨ strFalsy param = true ∨ param = some "userPool")
    (hE : verifyToken cfg av iv tok = Except.error e) :
    resolveServerAuth cfg av iv param rt d header = Except.error e := by
  unfold resolveServerAuth
  rw [hsup]
  simp only [bind, Except.bind, htok]
  rw [if_pos hcond]
  cases hG : getCognitoConfig cfg with
  | error e0 =>
    have hv0 : verifyToken cfg av iv tok = Except.error e0 := by
      unfold verifyToken
      rw [hG]
      rfl
    rw [hE] at hv0
    injection hv0 with h0
    subst h0
    rfl
  | ok c =>
    rw [hE]

theorem refine_escalated (cfg : CognitoConfig) (av iv : Verifier) (param header : Option String)
    (tok : String)
    (htok : extractBearerToken header = some tok)
    (hcond : strFalsy param = true ∨ param = some "userPool")
    (hsup : assertSupportedAuthMode param = Except.ok ())
    (hlist : listPostsResolve cfg av iv param header =
      Except.bind (verifyToken cfg av iv tok) fun payload =>
        match payload.sub with
        | some s =>
          if s = "" then Except.error ⟨401, "Token subject is missing"⟩
          else Except.ok ⟨some "userPool", some tok⟩
        | none => Except.error ⟨401, "Token subject is missing"⟩) :
    (∃ o r, listPostsResolve cfg av iv param header = Except.ok o ∧
        resolveServerAuth cfg av iv param false "identityPool" header = Except.ok r ∧
        o.authMode = some r.authMode ∧ o.authToken = r.authToken ∧
        r.amplifyAuthMode = toClientAuthMode (o.authMode.getD "")) ∨
    (∃ e, listPostsResolve cfg av iv param header = Except.error e ∧
        resolveServerAuth cfg av iv param false "identityPool" header = Except.error e) := by
  cases hV : verifyToken cfg av iv tok with
  | error e =>
    right
    refine ⟨e, ?_, ?_⟩
    · rw [hlist, hV]
      rfl
    · exact resolveServerAuth_escalation_err cfg av iv param false "identityPool" header tok e
        hsup htok (Or.inr hcond) hV
  | ok p =>
    have hres := resolveServerAuth_escalation_eq cfg av iv param false "identityPool" header
      tok p hsup htok (Or.inr hcond) hV
    cases hsub : p.sub with
    | none =>
      right
      refine ⟨⟨401, "Token subject is missing"⟩, ?_, ?_⟩
      · rw [hlist, hV]
        simp only [Except.bind, hsub]
      · rw [hres, hsub]
    | some s =>
      by_cases hs : s = ""
      · right
        refine ⟨⟨401, "Token subject is missing"⟩, ?_, ?_⟩
        · rw [hlist, hV]
          simp only [Except.bind, hsub, if_pos hs]
        · rw [hres, hsub]
          simp [hs]
      · left
        refine ⟨⟨some "userPool", some tok⟩, ⟨"userPool", "userPool", some tok, some s⟩,
          ?_, ?_, rfl, rfl, rfl⟩
        · rw [hlist, hV]
          simp only [Except.bind, hsub, if_neg hs]
        · rw [hres, hsub]
          simp [hs]

/-- C10 counterexample: for the empty request (no `authMode` parameter, no
authorization header) the list-posts handler hands the record store the
unmapped downstream mode `identityPool`, while the canonical resolver's
downstream mode is the collapsed `iam` — the handler skips `toClientAuthMode`. -/
theorem listPostsResolve_unmapped_mode_counterexample :
    listPostsResolve sampleConfig rejectVerifier rejectVerifier none none
      = Except.ok ⟨some "identityPool", none⟩ ∧
    resolveServerAuth sampleConfig rejectVerifier rejectVerifier none false "identityPool" none
      = Except.ok ⟨"identityPool", "iam", none, none⟩ ∧
    (some "identityPool" : Option String) ≠ some "iam" := by decide

/-- C10 (amended): with complete Cognito configuration, for every request
input (auth-mode query parameter and authorization header) the list-posts
handler's inline resolution and the canonical
`resolveServerAuth (requireToken := false, default := identityPool)` agree on
the resolved mode, the retained token, and — on failure — the exact error
(`UnsupportedMode`, `MissingCredential`, `MissingSubject`, `InvalidToken`);
the downstream modes agree only up to the `identityPool`/`iam` collapse: the
handler passes the resolved mode to the store unmapped, while the canonical
resolver maps it through `toClientAuthMode`. -/
theorem listPostsResolve_refines_resolveServerAuth (cfg : CognitoConfig) (av iv : Verifier)
    (param header : Option String) (hc : ensureConfig cfg = Except.ok ()) :
    (∃ o r, listPostsResolve cfg av iv param header = Except.ok o ∧
        resolveServerAuth cfg av iv param false "identityPool" header = Except.ok r ∧
        o.authMode = some r.authMode ∧ o.authToken = r.authToken ∧
        r.amplifyAuthMode = toClientAuthMode (o.authMode.getD "")) ∨
    (∃ e, listPostsResolve cfg av iv param header = Except.error e ∧
        resolveServerAuth cfg av iv param false "identityPool" header = Except.error e) := by
  have hG : getCognitoConfig cfg = Except.ok cfg := getCognitoConfig_of_ensure hc
  cases param with
  | none =>
    cases htok : extractBearerToken header with
    | none =>
      left
      refine ⟨⟨some "identityPool", none⟩, ⟨"identityPool", "iam", none, none⟩, ?_, ?_, rfl, rfl, rfl⟩
      · rw [listPostsResolve_none_eq, htok]
      · rw [resolveServerAuth_no_token_eq cfg av iv none false "identityPool" header rfl htok,
          if_neg (by simp)]
        exact finishResolve_default "identityPool" (by decide) none none
    | some tok =>
      apply refine_escalated cfg av iv none header tok htok (Or.inl rfl) rfl
      rw [listPostsResolve_none_eq, htok, hG]
      rfl
  | some s =>
    by_cases hup : s = "userPool"
    · subst hup
      cases htok : extractBearerToken header with
      | none =>
        right
        refine ⟨⟨401, "Missing bearer token"⟩, ?_, ?_⟩
        · rw [listPostsResolve_userPool_eq, hG, htok]
          rfl
        · rw [resolveServerAuth_no_token_eq cfg av iv (some "userPool") false "identityPool"
            header (by decide) htok, if_pos (Or.inr rfl)]
      | some tok =>
        apply refine_escalated cfg av iv (some "userPool") header tok htok (Or.inr rfl) (by decide)
        rw [listPostsResolve_userPool_eq, hG, htok]
        rfl
    · by_cases hse : s = ""
      · subst hse
        cases htok : extractBearerToken header with
        | none =>
          left
          refine ⟨⟨some "identityPool", none⟩, ⟨"identityPool", "iam", none, none⟩,
            ?_, ?_, rfl, rfl, rfl⟩
          · rw [listPostsResolve_empty_eq, htok]
          · rw [resolveServerAuth_no_token_eq cfg av iv (some "") false "identityPool" header
              rfl htok, if_neg (by simp)]
            exact finishResolve_empty "identityPool" (by decide) none none
        | some tok =>
          apply refine_escalated cfg av iv (some "") header tok htok (Or.inl rfl) rfl
          rw [listPostsResolve_empty_eq, htok, hG]
          rfl
      · by_cases hmem : s ∈ allowedAuthModes
        · have hcondneg : ¬((false : Bool) = true ∨ strFalsy (some s) = true ∨
              (some s : Option String) = some "userPool") := by
            rintro (h | h | h)
            · exact Bool.noConfusion h
            · rw [strFalsy_some_of_ne hse] at h; exact Bool.noConfusion h
            · exact hup (Option.some.inj h)
          have hsup : assertSupportedAuthMode (some s) = Except.ok () :=
            assertSupported_of_mem (Or.inr hmem)
          left
          refine ⟨⟨some s, none⟩, ⟨s, toClientAuthMode s, none, none⟩,
            listPostsResolve_pass_eq cfg av iv header s hmem hup, ?_, rfl, rfl, rfl⟩
          cases htok : extractBearerToken header with
          | none =>
            rw [resolveServerAuth_no_token_eq cfg av iv (some s) false "identityPool" header
              hsup htok, if_neg (by rintro (h | h); exacts [Bool.noConfusion h, hup (Option.some.inj h)])]
            exact finishResolve_pass s hmem "identityPool" none none
          | some tok =>
            rw [resolveServerAuth_no_escalation_eq cfg av iv (some s) false "identityPool"
              header tok hsup htok hcondneg]
            exact finishResolve_pass s hmem "identityPool" none none
        · right
          exact ⟨⟨400, "Unsupported auth mode"⟩,
            listPostsResolve_unsupported_eq cfg av iv header s hse hmem,
            resolveServerAuth_unsupported cfg av iv false "identityPool" header s hse hmem⟩

/-- C10 witness: a concrete agreeing run — requested `userPool` with a valid
token — where the handler and the canonical resolver produce matching
outcomes under a complete configuration. -/
theorem listPostsResolve_refines_resolveServerAuth_witness :
    ensureConfig sampleConfig = Except.ok () ∧
    ((∃ o r, listPostsResolve sampleConfig acceptTokVerifier rejectVerifier (some "userPool")
          (some "Bearer tok") = Except.ok o ∧
        resolveServerAuth sampleConfig acceptTokVerifier rejectVerifier (some "userPool")
          false "identityPool" (some "Bearer tok") = Except.ok r ∧
        o.authMode = some r.authMode ∧ o.authToken = r.authToken ∧
        r.amplifyAuthMode = toClientAuthMode (o.authMode.getD "")) ∨
    (∃ e, listPostsResolve sampleConfig acceptTokVerifier rejectVerifier (some "userPool")
          (some "Bearer tok") = Except.error e ∧
        resolveServerAuth sampleConfig acceptTokVerifier rejectVerifier (some "userPool")
          false "identityPool" (some "Bearer tok") = Except.error e)) :=
  ⟨by decide,
    listPostsResolve_refines_resolveServerAuth sampleConfig acceptTokVerifier rejectVerifier
      (some "userPool") (some "Bearer tok") (by decide)⟩
